import Mathlib

/-!
Shallow embedding of the AI Invoice Assistant (`src/src/App.js`, the version
starting at the `import React` header that reads the API key from settings
state).  JavaScript values that may be `undefined`/`null` are modelled with
`Option`; JS numbers are modelled as `ℚ` (no claim here depends on binary
floating-point rounding); thrown JS errors are modelled with `Except`.
Network I/O, `JSON.parse`, and file encoding are modelled as oracle
parameters, so theorems quantify over every possible environment response.
-/

namespace InvoiceApp

/-- JS truthiness-based `a || b` for string-or-undefined values:
`undefined` and `""` are falsy, any other string is truthy. -/
def jsOrStr (a : Option String) (b : String) : String :=
  match a with
  | none => b
  | some s => if s = "" then b else s

/-- JS truthiness-based `a || b` for number-or-undefined values:
`undefined`, `null` and `0` are falsy. -/
def jsOrNum (a : Option ℚ) (b : ℚ) : ℚ :=
  match a with
  | none => b
  | some q => if q = 0 then b else q

/-- JS `String.prototype.trim()`: strips whitespace characters from both
ends, modelled on the character list. -/
def jsTrim (s : String) : String :=
  ⟨((s.data.dropWhile Char.isWhitespace).reverse.dropWhile
      Char.isWhitespace).reverse⟩

/-- JS property-key coercion: an `undefined` key reads property "undefined". -/
def jsPropKey : Option String → String
  | some s => s
  | none => "undefined"

/-- One billable entry of an invoice (`lineItems` element).  Fields mirror the
objects produced by `JSON.parse` of the model output: any of them may be
absent, which `Option` records.  `category` is added by the app itself. -/
structure LineItem where
  description : Option String
  quantity : Option ℚ
  unitPrice : Option ℚ
  total : Option ℚ
  category : Option String
deriving Repr, DecidableEq

/-- The structured invoice object held in the `invoiceData` React state.
`fromName` models the JS field `from` (a Lean keyword).  `lineItems` is a
plain list: the app only ever installs records whose `lineItems` is an
array (see `buildRecord`). -/
structure InvoiceRecord where
  invoiceNumber : Option String
  invoiceDate : Option String
  dueDate : Option String
  billedTo : Option String
  fromName : Option String
  currency : Option String
  lineItems : List LineItem
  subtotal : Option ℚ
  tax : Option ℚ
  total : Option ℚ
deriving Repr, DecidableEq

/-- Result of `JSON.parse` on the extraction response text, before the
normalization step: `lineItems` itself may be absent (`undefined`). -/
structure ParsedInvoice where
  invoiceNumber : Option String
  invoiceDate : Option String
  dueDate : Option String
  billedTo : Option String
  fromName : Option String
  currency : Option String
  lineItems : Option (List LineItem)
  subtotal : Option ℚ
  tax : Option ℚ
  total : Option ℚ
deriving Repr, DecidableEq

/-- Errors thrown by `callGeminiAPI`, kept structured; `message` below gives
the JS `Error.message` text each one carries. -/
inductive GeminiError where
  | missingCredential
  | httpError (status : Nat) (body : String)
  | blockedContent (reason : String) (message : String)
  | malformedResponse
deriving Repr, DecidableEq

/-- The `err.message` string of each `GeminiError`, exactly as constructed in
`callGeminiAPI` (the `blockedContent` message field already holds
`blockReasonMessage || ''`). -/
def GeminiError.message : GeminiError → String
  | .missingCredential =>
      "API Key is missing. Please enter your Google AI API Key in Settings."
  | .httpError status body =>
      "API request failed with status " ++ toString status ++ ": " ++ body
  | .blockedContent reason msg =>
      "Request was blocked. Reason: " ++ reason ++ ". " ++ msg
  | .malformedResponse => "Invalid response structure from the API."

/-- Any JS error an orchestrator can catch: gateway errors, a `toBase64`
rejection, a `JSON.parse` SyntaxError, or a TypeError from dereferencing
`undefined`/`null`. -/
inductive JsError where
  | gemini (e : GeminiError)
  | ioError (message : String)
  | parseError (message : String)
  | typeError (message : String)
deriving Repr, DecidableEq

def JsError.message : JsError → String
  | .gemini e => e.message
  | .ioError m => m
  | .parseError m => m
  | .typeError m => m

/-- One content part of a response candidate. -/
structure Part where
  text : String
deriving Repr, DecidableEq

/-- Model of `candidates[i].content`; its `parts` field may be absent. -/
structure Content where
  parts : Option (List Part)
deriving Repr, DecidableEq

/-- One element of the response `candidates` array; `content` may be absent. -/
structure Candidate where
  content : Option Content
deriving Repr, DecidableEq

/-- Model of `result.promptFeedback`: both fields may be absent. -/
structure PromptFeedback where
  blockReason : Option String
  blockReasonMessage : Option String
deriving Repr, DecidableEq

/-- The JSON body of a 2xx gateway response (`result` in `callGeminiAPI`). -/
structure GeminiResult where
  candidates : Option (List Candidate)
  promptFeedback : Option PromptFeedback
deriving Repr, DecidableEq

/-- Oracle for one `fetch` round trip: HTTP status information, the raw text
body (read on the error path) and the parsed JSON body (read on success). -/
structure GeminiHttp where
  ok : Bool
  status : Nat
  body : String
  result : GeminiResult
deriving Repr, DecidableEq

/-- The guard `result.candidates && result.candidates.length > 0 &&
result.candidates[0].content && result.candidates[0].content.parts &&
result.candidates[0].content.parts.length > 0`, returning
`result.candidates[0].content.parts[0].text` when it passes. -/
def extractText (r : GeminiResult) : Option String :=
  match r.candidates with
  | some (c :: _) =>
      match c.content with
      | some content =>
          match content.parts with
          | some (p :: _) => some p.text
          | _ => none
      | none => none
  | _ => none

/-- The truthy check `result.promptFeedback && result.promptFeedback.blockReason`
(an empty-string `blockReason` is falsy in JS), yielding the reason and the
already-defaulted `blockReasonMessage || ''`. -/
def blockInfo (r : GeminiResult) : Option (String × String) :=
  match r.promptFeedback with
  | some pf =>
      match pf.blockReason with
      | some reason =>
          if reason = "" then none
          else some (reason, pf.blockReasonMessage.getD "")
      | none => none
  | none => none

/-- Model of `callGeminiAPI(payload, apiKey)`.  The payload only flows into the HTTP
request, which the `net` oracle answers, so it is not a parameter of the
model.  The second component counts `fetch` invocations. -/
def callGeminiAPI (apiKey : String) (net : GeminiHttp) :
    Except GeminiError String × Nat :=
  if apiKey = "" then (.error .missingCredential, 0)
  else if !net.ok then (.error (.httpError net.status net.body), 1)
  else
    match extractText net.result with
    | some text => (.ok text, 1)
    | none =>
        match blockInfo net.result with
        | some (reason, msg) => (.error (.blockedContent reason msg), 1)
        | none => (.error .malformedResponse, 1)

/-- The file handed to `transcribeInvoice` (its `name` and `type` fields). -/
structure FileInfo where
  name : String
  mimeType : String
deriving Repr, DecidableEq

/-- The two email intents passed to `generateEmail`. -/
inductive EmailType where
  | paymentApproval
  | vendorQuery
deriving Repr, DecidableEq

/-- The React state of the `App` component that the orchestrators read and
write.  `invoiceData = none` models the absent record, `error = none` the
cleared error, `modalContent = none` the closed modal. -/
structure AppState where
  invoiceData : Option InvoiceRecord
  isLoading : Bool
  loadingMessage : String
  error : Option String
  fileName : String
  modalContent : Option String
  modalTitle : String
  isSettingsOpen : Bool
  apiKey : String
deriving Repr, DecidableEq

/-- Normalization `parsedJson.lineItems = parsedJson.lineItems.map(item =>
({ ...item, category: '' }))` followed by `setInvoiceData(parsedJson)`:
the record installed on success, given that `lineItems` was present. -/
def buildRecord (p : ParsedInvoice) (items : List LineItem) : InvoiceRecord :=
  { invoiceNumber := p.invoiceNumber
    invoiceDate := p.invoiceDate
    dueDate := p.dueDate
    billedTo := p.billedTo
    fromName := p.fromName
    currency := p.currency
    lineItems := items.map fun item => { item with category := some "" }
    subtotal := p.subtotal
    tax := p.tax
    total := p.total }

/-- The TypeError message raised by `parsedJson.lineItems.map(...)` when
`lineItems` is `undefined`. -/
def mapUndefinedMsg : String :=
  "Cannot read properties of undefined (reading 'map')"

/-- The body of `transcribeInvoice`'s `try` block: `toBase64` (the `enc`
oracle), `callGeminiAPI`, `JSON.parse` (the `jsonParse` oracle), and the
`lineItems` normalization.  Returns the record to install or the thrown
error, with the `fetch` count. -/
def transcribeAttempt (jsonParse : String → Except JsError ParsedInvoice)
    (apiKey : String) (enc : Except String String) (net : GeminiHttp) :
    Except JsError InvoiceRecord × Nat :=
  match enc with
  | .error m => (.error (.ioError m), 0)
  | .ok _ =>
      match callGeminiAPI apiKey net with
      | (.error e, n) => (.error (.gemini e), n)
      | (.ok jsonText, n) =>
          match jsonParse jsonText with
          | .error e => (.error e, n)
          | .ok parsed =>
              match parsed.lineItems with
              | none => (.error (.typeError mapUndefinedMsg), n)
              | some items => (.ok (buildRecord parsed items), n)

/-- Model of `transcribeInvoice(file)`: guards, busy-on, try/catch/finally.  The
second component counts `fetch` invocations. -/
def transcribeInvoice (jsonParse : String → Except JsError ParsedInvoice)
    (s : AppState) (file : Option FileInfo) (enc : Except String String)
    (net : GeminiHttp) : AppState × Nat :=
  match file with
  | none => ({ s with error := some "Please select a file first." }, 0)
  | some f =>
      if s.apiKey = "" then
        ({ s with
            error := some
              "Please enter your Google AI API Key in Settings to proceed."
            isSettingsOpen := true }, 0)
      else
        let s1 := { s with
          isLoading := true
          loadingMessage := "Analyzing invoice: " ++ f.name ++ "..."
          error := none
          invoiceData := none
          fileName := f.name }
        match transcribeAttempt jsonParse s1.apiKey enc net with
        | (.ok record, n) =>
            ({ s1 with
                invoiceData := some record
                isLoading := false
                loadingMessage := "" }, n)
        | (.error e, n) =>
            ({ s1 with
                error := some ("Failed to transcribe invoice. " ++ e.message)
                isLoading := false
                loadingMessage := "" }, n)

/-- The state-updater passed to `setInvoiceData` in `getCategorySuggestion`:
`prevData => { const newLineItems = [...prevData.lineItems];
newLineItems[index].category = category.trim(); return { ...prevData,
lineItems: newLineItems }; }`, applied to whatever record is current when the
update is processed.  It throws a TypeError when `prevData` is `null` or
`index` is out of range. -/
def applySingleSuggestion (current : Option InvoiceRecord) (index : Nat)
    (category : String) : Except JsError (Option InvoiceRecord) :=
  match current with
  | none =>
      .error (.typeError
        "Cannot read properties of null (reading 'lineItems')")
  | some r =>
      if h : index < r.lineItems.length then
        .ok (some { r with
          lineItems := r.lineItems.set index
            { r.lineItems.get ⟨index, h⟩ with
                category := some (jsTrim category) } })
      else
        .error (.typeError
          "Cannot set properties of undefined (setting 'category')")

/-- Model of `getCategorySuggestion(itemDescription, index)`.  The state updater is
modelled as applied synchronously at merge time against the current record,
inside the `try` block. -/
def getCategorySuggestion (s : AppState) (itemDescription : String)
    (index : Nat) (net : GeminiHttp) : AppState × Nat :=
  let s1 := { s with
    isLoading := true
    loadingMessage :=
      "Getting category for \"" ++ itemDescription ++ "\"..."
    error := none }
  match callGeminiAPI s.apiKey net with
  | (.error e, n) =>
      ({ s1 with
          error := some
            ("Failed to get category suggestion. " ++ (JsError.gemini e).message)
          isLoading := false
          loadingMessage := "" }, n)
  | (.ok category, n) =>
      match applySingleSuggestion s1.invoiceData index category with
      | .ok newData =>
          ({ s1 with
              invoiceData := newData
              isLoading := false
              loadingMessage := "" }, n)
      | .error e =>
          ({ s1 with
              error := some
                ("Failed to get category suggestion. " ++ e.message)
              isLoading := false
              loadingMessage := "" }, n)

/-- The batch merge `prevData.lineItems.map(item => ({ ...item, category:
categories[item.description] || item.category || '' }))`, where `categories`
is the object parsed from the response (modelled as a lookup function). -/
def mergeAllCategories (categories : String → Option String)
    (r : InvoiceRecord) : InvoiceRecord :=
  { r with
    lineItems := r.lineItems.map fun item =>
      { item with
          category := some (jsOrStr (categories (jsPropKey item.description))
            (jsOrStr item.category "")) } }

/-- Model of `getAllCategorySuggestions()`.  The guard `!invoiceData ||
!invoiceData.lineItems` reduces to the absence check: every installed record
has an array `lineItems`, and JS arrays are truthy even when empty.
`parseCats` is the `JSON.parse` oracle for the response object. -/
def getAllCategorySuggestions
    (parseCats : String → Except JsError (String → Option String))
    (s : AppState) (net : GeminiHttp) : AppState × Nat :=
  match s.invoiceData with
  | none => (s, 0)
  | some r =>
      let s1 := { s with
        isLoading := true
        loadingMessage := "Getting all category suggestions..."
        error := none }
      match callGeminiAPI s.apiKey net with
      | (.error e, n) =>
          ({ s1 with
              error := some ("Failed to get all category suggestions. "
                ++ (JsError.gemini e).message)
              isLoading := false
              loadingMessage := "" }, n)
      | (.ok responseText, n) =>
          match parseCats responseText with
          | .error e =>
              ({ s1 with
                  error := some ("Failed to get all category suggestions. "
                    ++ e.message)
                  isLoading := false
                  loadingMessage := "" }, n)
          | .ok categories =>
              ({ s1 with
                  invoiceData := some (mergeAllCategories categories r)
                  isLoading := false
                  loadingMessage := "" }, n)

/-- The TypeError message raised by `invoiceData.total.toFixed(2)` when
`total` is `undefined` (a `null` total throws the same TypeError with
"null" in place of "undefined"; both are modelled by `none`). -/
def toFixedUndefinedMsg : String :=
  "Cannot read properties of undefined (reading 'toFixed')"

/-- Model of `generateEmail(emailType)`; `setModalTitle` runs before the prompt is
built, so the title is set even when `total.toFixed(2)` throws; the prompt
text itself is only sent to the gateway, which the `net` oracle answers. -/
def generateEmail (s : AppState) (emailType : EmailType) (net : GeminiHttp) :
    AppState × Nat :=
  match s.invoiceData with
  | none => (s, 0)
  | some r =>
      let s1 := { s with
        isLoading := true
        loadingMessage := "Drafting "
          ++ (match emailType with
              | .paymentApproval => "Payment Approval"
              | .vendorQuery => "Vendor Query") ++ " email..."
        error := none
        modalTitle :=
          match emailType with
          | .paymentApproval => "Draft: Payment Approval Request"
          | .vendorQuery => "Draft: Query to Vendor" }
      match r.total with
      | none =>
          ({ s1 with
              error := some
                ("Failed to generate email. " ++ toFixedUndefinedMsg)
              isLoading := false
              loadingMessage := "" }, 0)
      | some _ =>
          match callGeminiAPI s.apiKey net with
          | (.error e, n) =>
              ({ s1 with
                  error := some
                    ("Failed to generate email. " ++ (JsError.gemini e).message)
                  isLoading := false
                  loadingMessage := "" }, n)
          | (.ok emailContent, n) =>
              ({ s1 with
                  modalContent := some emailContent
                  isLoading := false
                  loadingMessage := "" }, n)

/-- CSV text-field quoting: `"${(x || '').replace(/"/g, '""')}"` — the value
is wrapped in double quotes with embedded double quotes doubled. -/
def csvQuoteEscape (s : String) : String :=
  "\"" ++ s.replace "\"" "\"\"" ++ "\""

/-- The fixed CSV header row of `downloadCSV`. -/
def csvHeaders : List String :=
  ["Invoice no.", "Customer", "Invoice date", "Due date",
   "Item(Product/Service)", "Description", "Item quantity", "Item rate",
   "Item amount", "Tax amount", "Item Category", "Currency"]

/-- One data row of `downloadCSV` for `item` at position `index`.  JS number
cells are stringified by `Array.join`, modelled by the `numToStr`
parameter. -/
def csvItemRow (numToStr : ℚ → String) (r : InvoiceRecord) (item : LineItem)
    (index : Nat) : List String :=
  [ if index = 0 then jsOrStr r.invoiceNumber "" else "",
    if index = 0 then csvQuoteEscape (jsOrStr r.billedTo "") else "",
    if index = 0 then jsOrStr r.invoiceDate "" else "",
    if index = 0 then jsOrStr r.dueDate "" else "",
    csvQuoteEscape (jsOrStr item.description ""),
    csvQuoteEscape (jsOrStr item.description ""),
    numToStr (jsOrNum item.quantity 0),
    numToStr (jsOrNum item.unitPrice 0),
    numToStr (jsOrNum item.total 0),
    if index = 0 then numToStr (jsOrNum r.tax 0) else "",
    jsOrStr item.category "",
    if index = 0 then jsOrStr r.currency "" else "" ]

/-- All rows written by `downloadCSV`: the header row followed by one row
per line item, in order. -/
def downloadCSVRows (numToStr : ℚ → String) (r : InvoiceRecord) :
    List (List String) :=
  csvHeaders :: r.lineItems.enum.map fun ⟨index, item⟩ =>
    csvItemRow numToStr r item index

/-- The `csvContent` string assembled by `downloadCSV` (data URI, rows joined
with commas, each row terminated by a newline). -/
def downloadCSVContent (numToStr : ℚ → String) (r : InvoiceRecord) : String :=
  "data:text/csv;charset=utf-8,"
    ++ String.join ((downloadCSVRows numToStr r).map fun row =>
        String.intercalate "," row ++ "\n")

/-! Concrete fixtures used by witnesses and counterexamples. -/

/-- A success envelope whose first candidate's first part carries `t`. -/
def mkNet (t : String) : GeminiHttp :=
  { ok := true
    status := 200
    body := ""
    result :=
      { candidates := some [{ content := some { parts := some [{ text := t }] } }]
        promptFeedback := none } }

/-- A sample uploaded file. -/
def fileFx : FileInfo := { name := "invoice.png", mimeType := "image/png" }

/-- A sample parsed line item as extraction returns it (no `category`). -/
def widgetItem : LineItem :=
  { description := some "Widget"
    quantity := some 2
    unitPrice := some 5
    total := some 10
    category := none }

/-- A second line item, already carrying the manual category `"Misc"`. -/
def gadgetItem : LineItem :=
  { description := some "Gadget"
    quantity := some 1
    unitPrice := some 3
    total := some 3
    category := some "Misc" }

/-- A sample installed record with two line items. -/
def sampleRecord : InvoiceRecord :=
  { invoiceNumber := some "INV-1"
    invoiceDate := some "2024-01-01"
    dueDate := some "2024-02-01"
    billedTo := some "Acme \"Corp\""
    fromName := some "Vendor"
    currency := some "$"
    lineItems := [{ widgetItem with category := some "" }, gadgetItem]
    subtotal := some 13
    tax := some 0
    total := some 13 }

/-- An initial app state with a credential configured. -/
def baseState : AppState :=
  { invoiceData := none
    isLoading := false
    loadingMessage := ""
    error := none
    fileName := ""
    modalContent := none
    modalTitle := ""
    isSettingsOpen := false
    apiKey := "k" }

/-- A state with no credential configured. -/
def noKeyState : AppState := { baseState with apiKey := "" }

/-- A parsed extraction response with one line item. -/
def sampleParsed : ParsedInvoice :=
  { invoiceNumber := some "INV-1"
    invoiceDate := some "2024-01-01"
    dueDate := some "2024-02-01"
    billedTo := some "Acme \"Corp\""
    fromName := some "Vendor"
    currency := some "$"
    lineItems := some [widgetItem]
    subtotal := some 10
    tax := some 0
    total := some 10 }

/-- A parsed extraction response whose `lineItems` field is absent. -/
def parsedNoItems : ParsedInvoice := { sampleParsed with lineItems := none }

/-- A parsed extraction response whose `lineItems` is the empty array. -/
def parsedEmptyItems : ParsedInvoice :=
  { sampleParsed with lineItems := some [] }

/-- A `JSON.parse` oracle that parses every text to `p`. -/
def parseTo (p : ParsedInvoice) : String → Except JsError ParsedInvoice :=
  fun _ => .ok p

/-- A record holding one item whose prior category is `"Misc"`. -/
def miscOnlyRecord : InvoiceRecord :=
  { sampleRecord with lineItems := [{ widgetItem with category := some "Misc" }] }

/-- The single line item of a record installed by a later extraction. -/
def consultingItem : LineItem :=
  { description := some "Consulting"
    quantity := some 1
    unitPrice := some 100
    total := some 100
    category := some "" }

/-- A record installed by a later extraction, unrelated to the record a
pending suggestion was issued against. -/
def freshRecord : InvoiceRecord :=
  { invoiceNumber := some "INV-2"
    invoiceDate := some "2024-03-01"
    dueDate := some "2024-04-01"
    billedTo := some "Beta LLC"
    fromName := some "Consultant"
    currency := some "$"
    lineItems := [consultingItem]
    subtotal := some 100
    tax := some 0
    total := some 100 }

/-- A record whose `total` field is absent. -/
def noTotalRecord : InvoiceRecord := { sampleRecord with total := none }

/-- A state with no credential but an installed record. -/
def noKeyRecordState : AppState :=
  { noKeyState with invoiceData := some sampleRecord }

/-- A batch-response mapping whose value at `"Widget"` is present but empty. -/
def emptySuggestion : String → Option String :=
  fun s => if s = "Widget" then some "" else none

/-- The batch-response mapping of the spec example, `{"Widget":"Equipment"}`. -/
def widgetEquipment : String → Option String :=
  fun s => if s = "Widget" then some "Equipment" else none

/-! ## Theorems -/

/-- C1: For every successful extraction whose parsed response contains N line
items, the installed `InvoiceRecord` has exactly N line items and every one
of them has `category` equal to the empty string `""` immediately after
extraction. -/
theorem C1_extraction_line_items
    (jsonParse : String → Except JsError ParsedInvoice) (s : AppState)
    (f : FileInfo) (b64 : String) (net : GeminiHttp) (text : String)
    (p : ParsedInvoice) (items : List LineItem)
    (hkey : s.apiKey ≠ "")
    (hnet : (callGeminiAPI s.apiKey net).1 = .ok text)
    (hparse : jsonParse text = .ok p)
    (hitems : p.lineItems = some items) :
    ∃ record : InvoiceRecord,
      (transcribeInvoice jsonParse s (some f) (.ok b64) net).1.invoiceData
          = some record ∧
      record.lineItems.length = items.length ∧
      ∀ item ∈ record.lineItems, item.category = some "" := by
  rcases hcall : callGeminiAPI s.apiKey net with ⟨res, n⟩
  rw [hcall] at hnet
  simp only at hnet
  subst hnet
  refine ⟨buildRecord p items, ?_, ?_, ?_⟩
  · simp [transcribeInvoice, hkey, transcribeAttempt, hcall, hparse, hitems]
  · simp [buildRecord]
  · intro item hmem
    simp only [buildRecord, List.mem_map] at hmem
    obtain ⟨x, _, rfl⟩ := hmem
    rfl

/-- Closed instance of `C1_extraction_line_items` at a concrete extraction. -/
theorem C1_extraction_line_items_witness :
    ∃ record : InvoiceRecord,
      (transcribeInvoice (parseTo sampleParsed) baseState (some fileFx)
          (.ok "b64") (mkNet "x")).1.invoiceData = some record ∧
      record.lineItems.length = [widgetItem].length ∧
      ∀ item ∈ record.lineItems, item.category = some "" :=
  C1_extraction_line_items (parseTo sampleParsed) baseState fileFx "b64"
    (mkNet "x") "x" sampleParsed [widgetItem]
    (by simp [baseState]) rfl rfl rfl

/-- C2 counterexample: a successfully parsed extraction response whose
`lineItems` is the empty array is NOT rejected — `[].map` succeeds, the
record is installed (with zero line items) and no error is set, so the
operation neither fails with `MalformedResponse` nor leaves the record
absent. -/
theorem C2_empty_line_items_counterexample :
    (transcribeInvoice (parseTo parsedEmptyItems) baseState (some fileFx)
        (.ok "b64") (mkNet "x")).1.invoiceData
      = some (buildRecord parsedEmptyItems []) ∧
    (transcribeInvoice (parseTo parsedEmptyItems) baseState (some fileFx)
        (.ok "b64") (mkNet "x")).1.invoiceData ≠ none ∧
    (transcribeInvoice (parseTo parsedEmptyItems) baseState (some fileFx)
        (.ok "b64") (mkNet "x")).1.error = none := by
  refine ⟨rfl, ?_, rfl⟩
  intro h
  simp [transcribeInvoice, baseState, parseTo, transcribeAttempt,
    callGeminiAPI, mkNet, extractText, parsedEmptyItems, sampleParsed] at h

/-- C2 (amended): a parsed response whose `lineItems` field is missing
entirely makes the normalization step throw; the failure is surfaced as the
transcription error and the record remains absent.  A parsed response whose
`lineItems` is an empty array, however, is accepted: the record is installed
with zero line items. -/
theorem C2_missing_line_items_amended
    (jsonParse : String → Except JsError ParsedInvoice) (s : AppState)
    (f : FileInfo) (b64 : String) (net : GeminiHttp) (text : String)
    (p : ParsedInvoice)
    (hkey : s.apiKey ≠ "")
    (hnet : (callGeminiAPI s.apiKey net).1 = .ok text)
    (hparse : jsonParse text = .ok p) :
    (p.lineItems = none →
      (transcribeInvoice jsonParse s (some f) (.ok b64) net).1.invoiceData
          = none ∧
      (transcribeInvoice jsonParse s (some f) (.ok b64) net).1.error
          = some ("Failed to transcribe invoice. " ++ mapUndefinedMsg)) ∧
    (p.lineItems = some [] →
      (transcribeInvoice jsonParse s (some f) (.ok b64) net).1.invoiceData
          = some (buildRecord p [])) := by
  rcases hcall : callGeminiAPI s.apiKey net with ⟨res, n⟩
  rw [hcall] at hnet
  simp only at hnet
  subst hnet
  constructor
  · intro hitems
    constructor <;>
      simp [transcribeInvoice, hkey, transcribeAttempt, hcall, hparse, hitems,
        JsError.message]
  · intro hitems
    simp [transcribeInvoice, hkey, transcribeAttempt, hcall, hparse, hitems]

/-- Closed instance of `C2_missing_line_items_amended` at a response whose
`lineItems` field is absent. -/
theorem C2_missing_line_items_amended_witness :
    (parsedNoItems.lineItems = none →
      (transcribeInvoice (parseTo parsedNoItems) baseState (some fileFx)
          (.ok "b64") (mkNet "x")).1.invoiceData = none ∧
      (transcribeInvoice (parseTo parsedNoItems) baseState (some fileFx)
          (.ok "b64") (mkNet "x")).1.error
        = some ("Failed to transcribe invoice. " ++ mapUndefinedMsg)) ∧
    (parsedNoItems.lineItems = some [] →
      (transcribeInvoice (parseTo parsedNoItems) baseState (some fileFx)
          (.ok "b64") (mkNet "x")).1.invoiceData
        = some (buildRecord parsedNoItems [])) :=
  C2_missing_line_items_amended (parseTo parsedNoItems) baseState fileFx "b64"
    (mkNet "x") "x" parsedNoItems (by simp [baseState]) rfl rfl

/-- C3: whenever no API credential is configured, every operation that would
reach the gateway fails with the missing-credential error and attempts zero
network requests; for extraction the check happens before any encoding work
(the result is the same for every encoding and network oracle) and leaves
the record and the busy state untouched. -/
theorem C3_missing_credential
    (jsonParse : String → Except JsError ParsedInvoice)
    (parseCats : String → Except JsError (String → Option String))
    (s : AppState) (f : FileInfo) (enc : Except String String)
    (net : GeminiHttp) (desc : String) (idx : Nat) (et : EmailType)
    (hkey : s.apiKey = "") :
    callGeminiAPI s.apiKey net = (.error .missingCredential, 0) ∧
    transcribeInvoice jsonParse s (some f) enc net =
      ({ s with
          error := some
            "Please enter your Google AI API Key in Settings to proceed."
          isSettingsOpen := true }, 0) ∧
    (getCategorySuggestion s desc idx net).2 = 0 ∧
    (getCategorySuggestion s desc idx net).1.error =
      some ("Failed to get category suggestion. "
        ++ GeminiError.missingCredential.message) ∧
    (getAllCategorySuggestions parseCats s net).2 = 0 ∧
    (∀ r, s.invoiceData = some r →
      (getAllCategorySuggestions parseCats s net).1.error =
        some ("Failed to get all category suggestions. "
          ++ GeminiError.missingCredential.message)) ∧
    (generateEmail s et net).2 = 0 ∧
    (∀ r t, s.invoiceData = some r → r.total = some t →
      (generateEmail s et net).1.error =
        some ("Failed to generate email. "
          ++ GeminiError.missingCredential.message)) := by
  refine ⟨?_, ?_, ?_, ?_, ?_, ?_, ?_, ?_⟩
  · simp [callGeminiAPI, hkey]
  · simp [transcribeInvoice, hkey]
  · simp [getCategorySuggestion, callGeminiAPI, hkey]
  · simp [getCategorySuggestion, callGeminiAPI, hkey, JsError.message]
  · cases hd : s.invoiceData <;>
      simp [getAllCategorySuggestions, callGeminiAPI, hkey, hd]
  · intro r hd
    simp [getAllCategorySuggestions, callGeminiAPI, hkey, hd, JsError.message]
  · cases hd : s.invoiceData with
    | none => simp [generateEmail, hd]
    | some r =>
        cases ht : r.total <;>
          simp [generateEmail, callGeminiAPI, hkey, hd, ht]
  · intro r t hd ht
    simp [generateEmail, callGeminiAPI, hkey, hd, ht, JsError.message]

/-- Closed instance of `C3_missing_credential` at a concrete state with no
credential and an installed record. -/
theorem C3_missing_credential_witness :
    callGeminiAPI noKeyRecordState.apiKey (mkNet "x")
        = (.error .missingCredential, 0) ∧
    transcribeInvoice (parseTo sampleParsed) noKeyRecordState (some fileFx)
        (.ok "b64") (mkNet "x") =
      ({ noKeyRecordState with
          error := some
            "Please enter your Google AI API Key in Settings to proceed."
          isSettingsOpen := true }, 0) ∧
    (getCategorySuggestion noKeyRecordState "Widget" 0 (mkNet "x")).2 = 0 ∧
    (getCategorySuggestion noKeyRecordState "Widget" 0 (mkNet "x")).1.error =
      some ("Failed to get category suggestion. "
        ++ GeminiError.missingCredential.message) ∧
    (getAllCategorySuggestions (fun _ => .ok widgetEquipment) noKeyRecordState
        (mkNet "x")).2 = 0 ∧
    (∀ r, noKeyRecordState.invoiceData = some r →
      (getAllCategorySuggestions (fun _ => .ok widgetEquipment)
          noKeyRecordState (mkNet "x")).1.error =
        some ("Failed to get all category suggestions. "
          ++ GeminiError.missingCredential.message)) ∧
    (generateEmail noKeyRecordState .paymentApproval (mkNet "x")).2 = 0 ∧
    (∀ r t, noKeyRecordState.invoiceData = some r → r.total = some t →
      (generateEmail noKeyRecordState .paymentApproval (mkNet "x")).1.error =
        some ("Failed to generate email. "
          ++ GeminiError.missingCredential.message)) :=
  C3_missing_credential (parseTo sampleParsed) (fun _ => .ok widgetEquipment)
    noKeyRecordState fileFx (.ok "b64") (mkNet "x") "Widget" 0 .paymentApproval
    rfl

/-- C4 counterexample: the batch response maps `"Widget"` to the empty
string, so the key IS present, yet the merged category is the prior
`"Misc"`, not the mapping's value `""` — `categories[d] || prior || ''`
skips falsy mapped values. -/
theorem C4_empty_value_counterexample :
    emptySuggestion "Widget" = some "" ∧
    (mergeAllCategories emptySuggestion miscOnlyRecord).lineItems.map
        (fun it => it.category) = [some "Misc"] := by
  exact ⟨rfl, rfl⟩

/-- C4 (amended): each line item's new category is the mapping's value at its
description when that key is present with a non-empty value; otherwise the
prior category when present and non-empty; otherwise the empty string.
Consequently an item with a prior non-empty category and no key in the
response keeps its prior category, and two items with identical descriptions
receive the same suggested category whenever that suggestion is non-empty. -/
theorem C4_batch_merge_amended (categories : String → Option String)
    (r : InvoiceRecord) :
    (mergeAllCategories categories r).lineItems.length
        = r.lineItems.length ∧
    (∀ (i : Nat) (item : LineItem), r.lineItems[i]? = some item →
      (mergeAllCategories categories r).lineItems[i]? = some
        { item with category := some (jsOrStr
            (categories (jsPropKey item.description))
            (jsOrStr item.category "")) }) ∧
    (∀ (i : Nat) (item : LineItem) (c : String),
      r.lineItems[i]? = some item →
      categories (jsPropKey item.description) = none →
      item.category = some c → c ≠ "" →
      ∃ item', (mergeAllCategories categories r).lineItems[i]? = some item' ∧
        item'.category = some c) ∧
    (∀ (i j : Nat) (itemi itemj : LineItem) (v : String),
      r.lineItems[i]? = some itemi →
      r.lineItems[j]? = some itemj →
      itemi.description = itemj.description →
      categories (jsPropKey itemi.description) = some v → v ≠ "" →
      ∃ itemi' itemj',
        (mergeAllCategories categories r).lineItems[i]? = some itemi' ∧
        (mergeAllCategories categories r).lineItems[j]? = some itemj' ∧
        itemi'.category = some v ∧ itemj'.category = some v) := by
  have key : ∀ (i : Nat) (item : LineItem), r.lineItems[i]? = some item →
      (mergeAllCategories categories r).lineItems[i]? = some
        { item with category := some (jsOrStr
            (categories (jsPropKey item.description))
            (jsOrStr item.category "")) } := by
    intro i item hitem
    simp [mergeAllCategories, List.getElem?_map, hitem]
  refine ⟨by simp [mergeAllCategories], key, ?_, ?_⟩
  · intro i item c hitem hnone hc hne
    refine ⟨_, key i item hitem, ?_⟩
    simp [hnone, jsOrStr, hc, hne]
  · intro i j itemi itemj v hi hj hdesc hv hne
    refine ⟨_, _, key i itemi hi, key j itemj hj, ?_, ?_⟩
    · simp [hv, jsOrStr, hne]
    · rw [hdesc] at hv
      simp [hv, jsOrStr, hne]

/-- Closed instance of `C4_batch_merge_amended` at the spec's example:
`{"Widget":"Equipment"}` against `["Widget","Gadget"]` with the second item
previously `"Misc"`. -/
theorem C4_batch_merge_amended_witness :
    (mergeAllCategories widgetEquipment sampleRecord).lineItems.length
        = sampleRecord.lineItems.length ∧
    (∀ (i : Nat) (item : LineItem), sampleRecord.lineItems[i]? = some item →
      (mergeAllCategories widgetEquipment sampleRecord).lineItems[i]? = some
        { item with category := some (jsOrStr
            (widgetEquipment (jsPropKey item.description))
            (jsOrStr item.category "")) }) ∧
    (∀ (i : Nat) (item : LineItem) (c : String),
      sampleRecord.lineItems[i]? = some item →
      widgetEquipment (jsPropKey item.description) = none →
      item.category = some c → c ≠ "" →
      ∃ item',
        (mergeAllCategories widgetEquipment sampleRecord).lineItems[i]?
            = some item' ∧
        item'.category = some c) ∧
    (∀ (i j : Nat) (itemi itemj : LineItem) (v : String),
      sampleRecord.lineItems[i]? = some itemi →
      sampleRecord.lineItems[j]? = some itemj →
      itemi.description = itemj.description →
      widgetEquipment (jsPropKey itemi.description) = some v → v ≠ "" →
      ∃ itemi' itemj',
        (mergeAllCategories widgetEquipment sampleRecord).lineItems[i]?
            = some itemi' ∧
        (mergeAllCategories widgetEquipment sampleRecord).lineItems[j]?
            = some itemj' ∧
        itemi'.category = some v ∧ itemj'.category = some v) :=
  C4_batch_merge_amended widgetEquipment sampleRecord

/-- C5: for every successful single-item suggestion at index `i` of a record
with `i < n` items, the returned text trimmed of surrounding whitespace is
written to `lineItems[i].category`, and every other index — and all
non-category fields of item `i` — are unchanged. -/
theorem C5_single_suggestion_frame
    (s : AppState) (desc : String) (i : Nat) (net : GeminiHttp)
    (text : String) (r : InvoiceRecord)
    (hdata : s.invoiceData = some r)
    (hi : i < r.lineItems.length)
    (hnet : (callGeminiAPI s.apiKey net).1 = .ok text) :
    ∃ (item : LineItem) (r' : InvoiceRecord),
      r.lineItems[i]? = some item ∧
      (getCategorySuggestion s desc i net).1.invoiceData = some r' ∧
      r'.lineItems.length = r.lineItems.length ∧
      r'.lineItems[i]? = some { item with category := some (jsTrim text) } ∧
      (∀ j : Nat, j ≠ i → r'.lineItems[j]? = r.lineItems[j]?) := by
  rcases hcall : callGeminiAPI s.apiKey net with ⟨res, n⟩
  rw [hcall] at hnet
  simp only at hnet
  subst hnet
  have happ : applySingleSuggestion s.invoiceData i text =
      .ok (some { r with lineItems := r.lineItems.set i ({
        r.lineItems.get ⟨i, hi⟩ with category := some (jsTrim text) }) }) := by
    rw [hdata]
    simp [applySingleSuggestion, hi]
  refine ⟨r.lineItems.get ⟨i, hi⟩,
    { r with lineItems := r.lineItems.set i ({
        r.lineItems.get ⟨i, hi⟩ with category := some (jsTrim text) }) },
    ?_, ?_, ?_, ?_, ?_⟩
  · simp [List.getElem?_eq_getElem hi]
  · simp [getCategorySuggestion, hcall, happ]
  · simp
  · simp [List.getElem?_set_self hi]
  · intro j hj
    simp [List.getElem?_set_ne (Ne.symm hj)]

/-- Closed instance of `C5_single_suggestion_frame` at the spec's example:
the gateway returns `" Travel\n"` for index 0. -/
theorem C5_single_suggestion_frame_witness :
    ∃ (item : LineItem) (r' : InvoiceRecord),
      sampleRecord.lineItems[0]? = some item ∧
      (getCategorySuggestion { baseState with invoiceData := some sampleRecord }
          "Widget" 0 (mkNet " Travel\n")).1.invoiceData = some r' ∧
      r'.lineItems.length = sampleRecord.lineItems.length ∧
      r'.lineItems[0]? = some { item with category := some (jsTrim " Travel\n") } ∧
      (∀ j : Nat, j ≠ 0 → r'.lineItems[j]? = sampleRecord.lineItems[j]?) :=
  C5_single_suggestion_frame { baseState with invoiceData := some sampleRecord }
    "Widget" 0 (mkNet " Travel\n") " Travel\n" sampleRecord rfl
    (by simp [sampleRecord]) rfl

/-- C6 (code bug): the single-suggestion merge performs no record
identity/version check.  Evaluating the merge step at the failing inputs:
applied after the record was destroyed (a new extraction set it to `null`)
the updater dereferences `null.lineItems` and throws a TypeError — under the
synchronous-updater model the orchestrator catches it and surfaces an error
message, so the operation neither silently discards the result nor leaves
the state unchanged; and applied after the record was replaced by a new one
whose length covers the stale index, the NEW record is patched at that
index instead of the merge being discarded. -/
theorem C6_stale_merge_not_discarded :
    applySingleSuggestion none 0 " Travel\n" =
      .error (.typeError
        "Cannot read properties of null (reading 'lineItems')") ∧
    applySingleSuggestion (some freshRecord) 0 " Travel\n" =
      .ok (some { freshRecord with
        lineItems := [{ consultingItem with category := some "Travel" }] }) ∧
    (getCategorySuggestion baseState "Widget" 0 (mkNet " Travel\n")).1.error =
      some ("Failed to get category suggestion. "
        ++ "Cannot read properties of null (reading 'lineItems')") := by
  refine ⟨rfl, ?_, rfl⟩
  simp [applySingleSuggestion, freshRecord, consultingItem]
  rfl

/-- C7: the gateway invoke operation fails on a non-success status with an
error carrying both the status code and the raw response body; on a success
envelope with at least one candidate holding at least one content part it
returns the first candidate's first part's text; on a success envelope
missing that text it fails with `blockedContent` exactly when an explicit
(non-empty) block-reason is present, and with `malformedResponse`
otherwise. -/
theorem C7_gateway_response_cases (k : String) (net : GeminiHttp)
    (hk : k ≠ "") :
    (net.ok = false →
      callGeminiAPI k net = (.error (.httpError net.status net.body), 1)) ∧
    (∀ (c : Candidate) (cs : List Candidate) (content : Content)
        (p : Part) (ps : List Part),
      net.ok = true →
      net.result.candidates = some (c :: cs) →
      c.content = some content →
      content.parts = some (p :: ps) →
      callGeminiAPI k net = (.ok p.text, 1)) ∧
    (net.ok = true → extractText net.result = none →
      (∀ (pf : PromptFeedback) (reason : String),
        net.result.promptFeedback = some pf →
        pf.blockReason = some reason → reason ≠ "" →
        callGeminiAPI k net =
          (.error (.blockedContent reason (pf.blockReasonMessage.getD "")),
            1)) ∧
      (blockInfo net.result = none →
        callGeminiAPI k net = (.error .malformedResponse, 1)) ∧
      (blockInfo net.result = none ↔
        ¬ ∃ (pf : PromptFeedback) (reason : String),
          net.result.promptFeedback = some pf ∧
          pf.blockReason = some reason ∧ reason ≠ "")) := by
  refine ⟨?_, ?_, ?_⟩
  · intro hok
    simp [callGeminiAPI, hk, hok]
  · intro c cs content p ps hok hc hcont hparts
    have hext : extractText net.result = some p.text := by
      simp [extractText, hc, hcont, hparts]
    simp [callGeminiAPI, hk, hok, hext]
  · intro hok hext
    refine ⟨?_, ?_, ?_⟩
    · intro pf reason hpf hbr hne
      have hbi : blockInfo net.result
          = some (reason, pf.blockReasonMessage.getD "") := by
        simp [blockInfo, hpf, hbr, hne]
      simp [callGeminiAPI, hk, hok, hext, hbi]
    · intro hbi
      simp [callGeminiAPI, hk, hok, hext, hbi]
    · constructor
      · rintro hbi ⟨pf, reason, hpf, hbr, hne⟩
        simp [blockInfo, hpf, hbr, hne] at hbi
      · intro hno
        cases hpf : net.result.promptFeedback with
        | none => simp [blockInfo, hpf]
        | some pf =>
            cases hbr : pf.blockReason with
            | none => simp [blockInfo, hpf, hbr]
            | some reason =>
                by_cases hre : reason = ""
                · simp [blockInfo, hpf, hbr, hre]
                · exact absurd ⟨pf, reason, hpf, hbr, hre⟩ hno

/-- Closed instance of `C7_gateway_response_cases` at a concrete key and
success response. -/
theorem C7_gateway_response_cases_witness :
    ((mkNet "x").ok = false →
      callGeminiAPI "k" (mkNet "x") =
        (.error (.httpError (mkNet "x").status (mkNet "x").body), 1)) ∧
    (∀ (c : Candidate) (cs : List Candidate) (content : Content)
        (p : Part) (ps : List Part),
      (mkNet "x").ok = true →
      (mkNet "x").result.candidates = some (c :: cs) →
      c.content = some content →
      content.parts = some (p :: ps) →
      callGeminiAPI "k" (mkNet "x") = (.ok p.text, 1)) ∧
    ((mkNet "x").ok = true → extractText (mkNet "x").result = none →
      (∀ (pf : PromptFeedback) (reason : String),
        (mkNet "x").result.promptFeedback = some pf →
        pf.blockReason = some reason → reason ≠ "" →
        callGeminiAPI "k" (mkNet "x") =
          (.error (.blockedContent reason (pf.blockReasonMessage.getD "")),
            1)) ∧
      (blockInfo (mkNet "x").result = none →
        callGeminiAPI "k" (mkNet "x") = (.error .malformedResponse, 1)) ∧
      (blockInfo (mkNet "x").result = none ↔
        ¬ ∃ (pf : PromptFeedback) (reason : String),
          (mkNet "x").result.promptFeedback = some pf ∧
          pf.blockReason = some reason ∧ reason ≠ "")) :=
  C7_gateway_response_cases "k" (mkNet "x") (by simp)

/-- C8: the CSV export produces exactly `lineItems.length` data rows after
the fixed header row; the header-level invoice fields (`invoiceNumber`,
`billedTo`, `invoiceDate`, `dueDate`, `tax`, `currency`) are populated only
in data row 0 and blank in all subsequent rows; each item's description
appears duplicated in two columns; and text fields have embedded double
quotes escaped by doubling. -/
theorem C8_csv_export (numToStr : ℚ → String) (r : InvoiceRecord) :
    (downloadCSVRows numToStr r).length = r.lineItems.length + 1 ∧
    (downloadCSVRows numToStr r)[0]? = some csvHeaders ∧
    (∀ (j : Nat) (item : LineItem), r.lineItems[j]? = some item →
      (downloadCSVRows numToStr r)[j + 1]?
        = some (csvItemRow numToStr r item j)) ∧
    (∀ item : LineItem,
      csvItemRow numToStr r item 0 =
        [jsOrStr r.invoiceNumber "",
         "\"" ++ (jsOrStr r.billedTo "").replace "\"" "\"\"" ++ "\"",
         jsOrStr r.invoiceDate "",
         jsOrStr r.dueDate "",
         "\"" ++ (jsOrStr item.description "").replace "\"" "\"\"" ++ "\"",
         "\"" ++ (jsOrStr item.description "").replace "\"" "\"\"" ++ "\"",
         numToStr (jsOrNum item.quantity 0),
         numToStr (jsOrNum item.unitPrice 0),
         numToStr (jsOrNum item.total 0),
         numToStr (jsOrNum r.tax 0),
         jsOrStr item.category "",
         jsOrStr r.currency ""]) ∧
    (∀ (item : LineItem) (j : Nat), j ≠ 0 →
      csvItemRow numToStr r item j =
        ["", "", "", "",
         "\"" ++ (jsOrStr item.description "").replace "\"" "\"\"" ++ "\"",
         "\"" ++ (jsOrStr item.description "").replace "\"" "\"\"" ++ "\"",
         numToStr (jsOrNum item.quantity 0),
         numToStr (jsOrNum item.unitPrice 0),
         numToStr (jsOrNum item.total 0),
         "",
         jsOrStr item.category "",
         ""]) := by
  refine ⟨?_, ?_, ?_, ?_, ?_⟩
  · simp [downloadCSVRows]
  · simp [downloadCSVRows]
  · intro j item hitem
    simp [downloadCSVRows, List.getElem?_enum, hitem]
  · intro item
    simp [csvItemRow, csvQuoteEscape]
  · intro item j hj
    simp [csvItemRow, csvQuoteEscape, hj]

/-- Closed instance of `C8_csv_export` at a concrete record with an embedded
double quote in `billedTo`. -/
theorem C8_csv_export_witness :
    (downloadCSVRows (fun q => toString q) sampleRecord).length
        = sampleRecord.lineItems.length + 1 ∧
    (downloadCSVRows (fun q => toString q) sampleRecord)[0]?
        = some csvHeaders ∧
    (∀ (j : Nat) (item : LineItem),
      sampleRecord.lineItems[j]? = some item →
      (downloadCSVRows (fun q => toString q) sampleRecord)[j + 1]?
        = some (csvItemRow (fun q => toString q) sampleRecord item j)) ∧
    (∀ item : LineItem,
      csvItemRow (fun q => toString q) sampleRecord item 0 =
        [jsOrStr sampleRecord.invoiceNumber "",
         "\"" ++ (jsOrStr sampleRecord.billedTo "").replace "\"" "\"\""
           ++ "\"",
         jsOrStr sampleRecord.invoiceDate "",
         jsOrStr sampleRecord.dueDate "",
         "\"" ++ (jsOrStr item.description "").replace "\"" "\"\"" ++ "\"",
         "\"" ++ (jsOrStr item.description "").replace "\"" "\"\"" ++ "\"",
         toString (jsOrNum item.quantity 0),
         toString (jsOrNum item.unitPrice 0),
         toString (jsOrNum item.total 0),
         toString (jsOrNum sampleRecord.tax 0),
         jsOrStr item.category "",
         jsOrStr sampleRecord.currency ""]) ∧
    (∀ (item : LineItem) (j : Nat), j ≠ 0 →
      csvItemRow (fun q => toString q) sampleRecord item j =
        ["", "", "", "",
         "\"" ++ (jsOrStr item.description "").replace "\"" "\"\"" ++ "\"",
         "\"" ++ (jsOrStr item.description "").replace "\"" "\"\"" ++ "\"",
         toString (jsOrNum item.quantity 0),
         toString (jsOrNum item.unitPrice 0),
         toString (jsOrNum item.total 0),
         "",
         jsOrStr item.category "",
         ""]) :=
  C8_csv_export (fun q => toString q) sampleRecord

/-- C9: every orchestrator operation (extraction, single or batch
enrichment, email drafting) terminates with the busy flag cleared for every
outcome of its call chain, and on each failure the user-visible error is a
single message whose prefix names the operation being attempted.  No failure
escapes uncaught: each orchestrator is a total function into a final
state. -/
theorem C9_orchestrators_catch_all
    (jsonParse : String → Except JsError ParsedInvoice)
    (parseCats : String → Except JsError (String → Option String))
    (s : AppState) (file : Option FileInfo) (enc : Except String String)
    (net : GeminiHttp) (desc : String) (idx : Nat) (et : EmailType)
    (hbusy : s.isLoading = false) :
    (transcribeInvoice jsonParse s file enc net).1.isLoading = false ∧
    (∀ (f : FileInfo) (e : JsError) (n : Nat), s.apiKey ≠ "" →
      transcribeAttempt jsonParse s.apiKey enc net = (.error e, n) →
      (transcribeInvoice jsonParse s (some f) enc net).1.error =
        some ("Failed to transcribe invoice. " ++ e.message)) ∧
    (getCategorySuggestion s desc idx net).1.isLoading = false ∧
    (∀ (e : GeminiError) (n : Nat),
      callGeminiAPI s.apiKey net = (.error e, n) →
      (getCategorySuggestion s desc idx net).1.error =
        some ("Failed to get category suggestion. " ++ e.message)) ∧
    (∀ (t : String) (n : Nat) (e : JsError),
      callGeminiAPI s.apiKey net = (.ok t, n) →
      applySingleSuggestion s.invoiceData idx t = .error e →
      (getCategorySuggestion s desc idx net).1.error =
        some ("Failed to get category suggestion. " ++ e.message)) ∧
    (getAllCategorySuggestions parseCats s net).1.isLoading = false ∧
    (∀ (r : InvoiceRecord) (e : GeminiError) (n : Nat),
      s.invoiceData = some r →
      callGeminiAPI s.apiKey net = (.error e, n) →
      (getAllCategorySuggestions parseCats s net).1.error =
        some ("Failed to get all category suggestions. " ++ e.message)) ∧
    (∀ (r : InvoiceRecord) (t : String) (n : Nat) (e : JsError),
      s.invoiceData = some r →
      callGeminiAPI s.apiKey net = (.ok t, n) →
      parseCats t = .error e →
      (getAllCategorySuggestions parseCats s net).1.error =
        some ("Failed to get all category suggestions. " ++ e.message)) ∧
    (generateEmail s et net).1.isLoading = false ∧
    (∀ r : InvoiceRecord, s.invoiceData = some r → r.total = none →
      (generateEmail s et net).1.error =
        some ("Failed to generate email. " ++ toFixedUndefinedMsg)) ∧
    (∀ (r : InvoiceRecord) (q : ℚ) (e : GeminiError) (n : Nat),
      s.invoiceData = some r → r.total = some q →
      callGeminiAPI s.apiKey net = (.error e, n) →
      (generateEmail s et net).1.error =
        some ("Failed to generate email. " ++ e.message)) := by
  refine ⟨?_, ?_, ?_, ?_, ?_, ?_, ?_, ?_, ?_, ?_, ?_⟩
  · cases file with
    | none => simpa [transcribeInvoice] using hbusy
    | some f =>
        by_cases hk : s.apiKey = ""
        · simp [transcribeInvoice, hk, hbusy]
        · rcases hatt : transcribeAttempt jsonParse s.apiKey enc net
            with ⟨res, n⟩
          cases res <;> simp [transcribeInvoice, hk, hatt]
  · intro f e n hk hatt
    simp [transcribeInvoice, hk, hatt]
  · rcases hcall : callGeminiAPI s.apiKey net with ⟨res, n⟩
    cases res with
    | error e => simp [getCategorySuggestion, hcall]
    | ok t =>
        cases happ : applySingleSuggestion s.invoiceData idx t with
        | error e => simp [getCategorySuggestion, hcall, happ]
        | ok d => simp [getCategorySuggestion, hcall, happ]
  · intro e n hcall
    simp [getCategorySuggestion, hcall, JsError.message]
  · intro t n e hcall happ
    simp [getCategorySuggestion, hcall, happ]
  · cases hd : s.invoiceData with
    | none => simpa [getAllCategorySuggestions, hd] using hbusy
    | some r =>
        rcases hcall : callGeminiAPI s.apiKey net with ⟨res, n⟩
        cases res with
        | error e => simp [getAllCategorySuggestions, hd, hcall]
        | ok t =>
            cases hp : parseCats t with
            | error e => simp [getAllCategorySuggestions, hd, hcall, hp]
            | ok cats => simp [getAllCategorySuggestions, hd, hcall, hp]
  · intro r e n hd hcall
    simp [getAllCategorySuggestions, hd, hcall, JsError.message]
  · intro r t n e hd hcall hp
    simp [getAllCategorySuggestions, hd, hcall, hp]
  · cases hd : s.invoiceData with
    | none => simpa [generateEmail, hd] using hbusy
    | some r =>
        cases ht : r.total with
        | none => simp [generateEmail, hd, ht]
        | some q =>
            rcases hcall : callGeminiAPI s.apiKey net with ⟨res, n⟩
            cases res <;> simp [generateEmail, hd, ht, hcall]
  · intro r hd ht
    simp [generateEmail, hd, ht]
  · intro r q e n hd ht hcall
    simp [generateEmail, hd, ht, hcall, JsError.message]

/-- Closed instance of `C9_orchestrators_catch_all` at a concrete state with
a record installed and a failing (HTTP 429) gateway response. -/
theorem C9_orchestrators_catch_all_witness :
    letI s := { baseState with invoiceData := some sampleRecord }
    letI net : GeminiHttp :=
      { ok := false, status := 429, body := "rate limited",
        result := { candidates := none, promptFeedback := none } }
    (transcribeInvoice (parseTo sampleParsed) s (some fileFx) (.ok "b64")
        net).1.isLoading = false ∧
    (∀ (f : FileInfo) (e : JsError) (n : Nat), s.apiKey ≠ "" →
      transcribeAttempt (parseTo sampleParsed) s.apiKey (.ok "b64") net
          = (.error e, n) →
      (transcribeInvoice (parseTo sampleParsed) s (some f) (.ok "b64")
          net).1.error =
        some ("Failed to transcribe invoice. " ++ e.message)) ∧
    (getCategorySuggestion s "Widget" 0 net).1.isLoading = false ∧
    (∀ (e : GeminiError) (n : Nat),
      callGeminiAPI s.apiKey net = (.error e, n) →
      (getCategorySuggestion s "Widget" 0 net).1.error =
        some ("Failed to get category suggestion. " ++ e.message)) ∧
    (∀ (t : String) (n : Nat) (e : JsError),
      callGeminiAPI s.apiKey net = (.ok t, n) →
      applySingleSuggestion s.invoiceData 0 t = .error e →
      (getCategorySuggestion s "Widget" 0 net).1.error =
        some ("Failed to get category suggestion. " ++ e.message)) ∧
    (getAllCategorySuggestions (fun _ => .ok widgetEquipment) s
        net).1.isLoading = false ∧
    (∀ (r : InvoiceRecord) (e : GeminiError) (n : Nat),
      s.invoiceData = some r →
      callGeminiAPI s.apiKey net = (.error e, n) →
      (getAllCategorySuggestions (fun _ => .ok widgetEquipment) s
          net).1.error =
        some ("Failed to get all category suggestions. " ++ e.message)) ∧
    (∀ (r : InvoiceRecord) (t : String) (n : Nat) (e : JsError),
      s.invoiceData = some r →
      callGeminiAPI s.apiKey net = (.ok t, n) →
      (fun (_ : String) =>
        (.ok widgetEquipment :
          Except JsError (String → Option String))) t = .error e →
      (getAllCategorySuggestions (fun _ => .ok widgetEquipment) s
          net).1.error =
        some ("Failed to get all category suggestions. " ++ e.message)) ∧
    (generateEmail s .vendorQuery net).1.isLoading = false ∧
    (∀ r : InvoiceRecord, s.invoiceData = some r → r.total = none →
      (generateEmail s .vendorQuery net).1.error =
        some ("Failed to generate email. " ++ toFixedUndefinedMsg)) ∧
    (∀ (r : InvoiceRecord) (q : ℚ) (e : GeminiError) (n : Nat),
      s.invoiceData = some r → r.total = some q →
      callGeminiAPI s.apiKey net = (.error e, n) →
      (generateEmail s .vendorQuery net).1.error =
        some ("Failed to generate email. " ++ e.message)) :=
  C9_orchestrators_catch_all (parseTo sampleParsed)
    (fun _ => .ok widgetEquipment)
    { baseState with invoiceData := some sampleRecord } (some fileFx)
    (.ok "b64")
    { ok := false, status := 429, body := "rate limited",
      result := { candidates := none, promptFeedback := none } }
    "Widget" 0 .vendorQuery rfl

/-- C10: for every record whose `total` field is undefined or null, invoking
the email-draft operation with either intent installs no modal content,
performs no network request, terminates with the busy flag cleared and the
error set to a message prefixed "Failed to generate email.", and leaves the
record unchanged — the formatting failure is caught, not propagated. -/
theorem C10_email_missing_total
    (s : AppState) (r : InvoiceRecord) (et : EmailType) (net : GeminiHttp)
    (hdata : s.invoiceData = some r) (htotal : r.total = none) :
    (generateEmail s et net).2 = 0 ∧
    (generateEmail s et net).1.modalContent = s.modalContent ∧
    (generateEmail s et net).1.isLoading = false ∧
    (generateEmail s et net).1.error =
      some ("Failed to generate email. " ++ toFixedUndefinedMsg) ∧
    (generateEmail s et net).1.invoiceData = s.invoiceData := by
  refine ⟨?_, ?_, ?_, ?_, ?_⟩ <;> simp [generateEmail, hdata, htotal]

/-- Closed instance of `C10_email_missing_total` at a record with no
`total`. -/
theorem C10_email_missing_total_witness :
    letI s := { baseState with invoiceData := some noTotalRecord }
    (generateEmail s .paymentApproval (mkNet "x")).2 = 0 ∧
    (generateEmail s .paymentApproval (mkNet "x")).1.modalContent
        = s.modalContent ∧
    (generateEmail s .paymentApproval (mkNet "x")).1.isLoading = false ∧
    (generateEmail s .paymentApproval (mkNet "x")).1.error =
      some ("Failed to generate email. " ++ toFixedUndefinedMsg) ∧
    (generateEmail s .paymentApproval (mkNet "x")).1.invoiceData
        = s.invoiceData :=
  C10_email_missing_total { baseState with invoiceData := some noTotalRecord }
    noTotalRecord .paymentApproval (mkNet "x") rfl rfl

end InvoiceApp
